import Mathlib

/-!
A shallow embedding of PlasmaPy's Coulomb-logarithm / impact-parameter engine
(`plasmapy/formulary/collisions.py`) and of the Thomson spectral-density
engine (`plasmapy/diagnostics/thomson.py`), together with theorems checking
the stated properties of those two functions.

Modelling conventions:

* machine floats are modelled by real numbers (`ℝ`); the astropy unit
  bookkeeping is dropped, every value is taken in SI units, so `.to(u.m)` and
  `.to(u.dimensionless_unscaled)` are identities;
* the external collaborator functions that the two source files import from
  other modules (`Debye_length`, `thermal_speed`, `Wigner_Seitz_radius`,
  `plasma_frequency`, `permittivity_1D_Maxwellian`, `reduced_mass`) and the
  physical constants are abstracted as fields of an environment record — the
  source files only apply them;
* the `np.nan` sentinels used for the optional arguments `z_mean` and `V`
  are modelled with `Option` (`none` = the NaN sentinel);
* numpy arrays are modelled by lists; the scalar and the array execution
  paths of the source (which branch on `np.isscalar`) are embedded as
  separate definitions;
* raised exceptions are modelled by `Except`: `CollErr` collects the
  `ValueError` / `PhysicsError` / `RelativityError` cases of the collisions
  module, `SDErr` the `ValueError` cases of `spectral_density`, each error
  constructor carrying exactly the data that the corresponding Python
  message interpolates.
-/

namespace PlasmaPy

/-- A member of the collision pair, as used by `_boilerPlate`: its mass and
the absolute value of its charge (`charges = [np.abs(p.charge) for p in
species]`). -/
structure ChargedParticle where
  mass : ℝ
  absCharge : ℝ

/-- External collaborator functions and physical constants consumed by
`collisions.py` but defined outside the two source files:
`parameters.Debye_length`, `parameters.thermal_speed` (with an explicit
mass override, as called by `_replaceNanVwithThermalV`),
`quantum.Wigner_Seitz_radius`, `particles.reduced_mass`, and the constants
`hbar`, `eps0`, `c`. -/
structure CollisionEnv where
  hbar : ℝ
  eps0 : ℝ
  c : ℝ
  Debye_length : ℝ → ℝ → ℝ
  thermal_speed : ℝ → ℝ → ℝ
  Wigner_Seitz_radius : ℝ → ℝ
  reduced_mass : ℝ → ℝ → ℝ

/-- The exceptions that the collisions code can raise, each carrying the data
its message interpolates. -/
inductive CollErr where
  | zeroVelocity
  | relativity
  | missingZMean
  | unknownMethod (m : String)
deriving DecidableEq

/-- The six strings accepted by the linear (straight-line Landau-Spitzer)
branch of `Coulomb_logarithm`. -/
def linearMethods : List String :=
  ["classical", "ls", "ls_min_interp", "GMS-1", "ls_full_interp", "GMS-2"]

/-- The two strings accepted by the clamped-linear branch. -/
def clampMethods : List String :=
  ["ls_clamp_mininterp", "GMS-3"]

/-- The six strings accepted by the hyperbolic branch. -/
def hyperbolicMethods : List String :=
  ["hls_min_interp", "GMS-4", "hls_max_interp", "GMS-5", "hls_full_interp", "GMS-6"]

/-- The six strings for which `impact_parameter` demands a numeric `z_mean`. -/
def zRequiredMethods : List String :=
  ["ls_full_interp", "GMS-2", "hls_max_interp", "GMS-5", "hls_full_interp", "GMS-6"]

/-- `_replaceNanVwithThermalV`, scalar case: a zero velocity raises
`PhysicsError`; the NaN sentinel (`none`) is replaced by the thermal speed
computed from `T` and the reduced mass. -/
noncomputable def resolveV (env : CollisionEnv) (T mu : ℝ) (V : Option ℝ) :
    Except CollErr ℝ :=
  match V with
  | some v => if v = 0 then .error .zeroVelocity else .ok v
  | none => .ok (env.thermal_speed T mu)

/-- `impact_parameter_perp`: the 90° distance of closest approach
`|q1| |q2| / (4 π ε₀ μ V²)` after the `_boilerPlate` velocity handling.
The relativistic-velocity rejection of the external validation layer
(`_check_relativistic`) is modelled as `c ≤ |v| → RelativityError`. -/
noncomputable def impact_parameter_perp (env : CollisionEnv) (T : ℝ)
    (p1 p2 : ChargedParticle) (V : Option ℝ) : Except CollErr ℝ :=
  let mu := env.reduced_mass p1.mass p2.mass
  match resolveV env T mu V with
  | .error e => .error e
  | .ok v =>
    if env.c ≤ |v| then .error .relativity
    else .ok (p1.absCharge * p2.absCharge / (4 * Real.pi * env.eps0 * mu * v ^ 2))

/-- `impact_parameter`, scalar path: computes the Debye length, the de
Broglie wavelength `ħ/(2 μ V)` and the 90° closest-approach distance, then
selects `(bmin, bmax)` by method exactly as the source's if/elif chain. -/
noncomputable def impact_parameter (env : CollisionEnv) (T n_e : ℝ)
    (p1 p2 : ChargedParticle) (z_mean : Option ℝ) (V : Option ℝ)
    (method : String) : Except CollErr (ℝ × ℝ) :=
  let mu := env.reduced_mass p1.mass p2.mass
  match resolveV env T mu V with
  | .error e => .error e
  | .ok v =>
    if env.c ≤ |v| then .error .relativity
    else if method ∈ zRequiredMethods ∧ z_mean = none then .error .missingZMean
    else
      let lambdaDe := env.Debye_length T n_e
      let lambdaBroglie := env.hbar / (2 * mu * v)
      match impact_parameter_perp env T p1 p2 (some v) with
      | .error e => .error e
      | .ok bPerp =>
        if method = "classical" ∨ method = "ls" then
          .ok (if bPerp > lambdaBroglie then bPerp else lambdaBroglie, lambdaDe)
        else if method = "ls_min_interp" ∨ method = "GMS-1" then
          .ok (Real.sqrt (lambdaBroglie ^ 2 + bPerp ^ 2), lambdaDe)
        else if method = "ls_full_interp" ∨ method = "GMS-2" then
          let n_i := n_e / z_mean.getD 0
          let ionRadius := env.Wigner_Seitz_radius n_i
          .ok (Real.sqrt (lambdaBroglie ^ 2 + bPerp ^ 2),
               Real.sqrt (lambdaDe ^ 2 + ionRadius ^ 2))
        else if method = "ls_clamp_mininterp" ∨ method = "GMS-3" then
          .ok (Real.sqrt (lambdaBroglie ^ 2 + bPerp ^ 2), lambdaDe)
        else if method = "hls_min_interp" ∨ method = "GMS-4" then
          .ok (Real.sqrt (lambdaBroglie ^ 2 + bPerp ^ 2), lambdaDe)
        else if method = "hls_max_interp" ∨ method = "GMS-5" then
          let n_i := n_e / z_mean.getD 0
          let ionRadius := env.Wigner_Seitz_radius n_i
          .ok (bPerp, Real.sqrt (lambdaDe ^ 2 + ionRadius ^ 2))
        else if method = "hls_full_interp" ∨ method = "GMS-6" then
          let n_i := n_e / z_mean.getD 0
          let ionRadius := env.Wigner_Seitz_radius n_i
          .ok (Real.sqrt (lambdaBroglie ^ 2 + bPerp ^ 2),
               Real.sqrt (lambdaDe ^ 2 + ionRadius ^ 2))
        else .error (.unknownMethod method)

/-- The two advisory warnings of `Coulomb_logarithm`. -/
inductive CouplingWarning where
  | weakCoupling
  | strongCoupling
deriving DecidableEq

/-- A float-with-NaN comparison: `nanLt x c` is the numpy elementwise
`x < c`, which is `False` on NaN entries (`none`). -/
noncomputable def nanLt (x : Option ℝ) (c : ℝ) : Bool :=
  match x with
  | none => false
  | some v => decide (v < c)

/-- The warning block at the end of `Coulomb_logarithm`: inside
`np.errstate(invalid="ignore")`, `if np.any(ln_Lambda < 2) and method in`
the linear family, warn about weak coupling, `elif np.any(ln_Lambda < 4)`
warn that strong coupling effects may exist. -/
noncomputable def couplingWarning (method : String) (lnvals : List (Option ℝ)) :
    Option CouplingWarning :=
  if (lnvals.any fun x => nanLt x 2) ∧ method ∈ linearMethods then
    some .weakCoupling
  else if lnvals.any fun x => nanLt x 4 then
    some .strongCoupling
  else none

/-- `Coulomb_logarithm`, scalar path: fetch `(bmin, bmax)` from
`impact_parameter`, apply the per-family logarithm formula (with the scalar
clamp branch `ln_Lambda = 2` when the value is below 2), and report the
coupling warning alongside the returned value. -/
noncomputable def Coulomb_logarithm (env : CollisionEnv) (T n_e : ℝ)
    (p1 p2 : ChargedParticle) (z_mean : Option ℝ) (V : Option ℝ)
    (method : String) : Except CollErr (ℝ × Option CouplingWarning) :=
  match impact_parameter env T n_e p1 p2 z_mean V method with
  | .error e => .error e
  | .ok (bmin, bmax) =>
    let step : Except CollErr ℝ :=
      if method ∈ linearMethods then
        .ok (Real.log (bmax / bmin))
      else if method ∈ clampMethods then
        let l := Real.log (bmax / bmin)
        .ok (if l < 2 then 2 else l)
      else if method ∈ hyperbolicMethods then
        .ok (0.5 * Real.log (1 + bmax ^ 2 / bmin ^ 2))
      else .error (.unknownMethod method)
    match step with
    | .error e => .error e
    | .ok lnL => .ok (lnL, couplingWarning method [some lnL])

/-- `_replaceNanVwithThermalV`, array case with `T` and `V` of equal length:
any zero entry raises `PhysicsError`; a fully-NaN `V` (`none`) is replaced
elementwise by the thermal speed. -/
noncomputable def resolveV_arr (env : CollisionEnv) (T : List ℝ) (mu : ℝ)
    (V : Option (List ℝ)) : Except CollErr (List ℝ) :=
  match V with
  | some vs => if vs.any fun v => decide (v = 0) then .error .zeroVelocity else .ok vs
  | none => .ok (T.map fun t => env.thermal_speed t mu)

/-- `impact_parameter_perp` on equal-length array inputs, elementwise. -/
noncomputable def impact_parameter_perp_arr (env : CollisionEnv) (T : List ℝ)
    (p1 p2 : ChargedParticle) (V : Option (List ℝ)) : Except CollErr (List ℝ) :=
  let mu := env.reduced_mass p1.mass p2.mass
  match resolveV_arr env T mu V with
  | .error e => .error e
  | .ok vs =>
    if vs.any fun v => decide (env.c ≤ |v|) then .error .relativity
    else .ok (vs.map fun v =>
      p1.absCharge * p2.absCharge / (4 * Real.pi * env.eps0 * mu * v ^ 2))

/-- `impact_parameter` on equal-length array inputs (`T`, `n_e`, `V` all of
the same length, the regime in which the source's `except ValueError` branch
of the classical method runs): all three lengths and the per-method table
are computed elementwise. -/
noncomputable def impact_parameter_arr (env : CollisionEnv) (T n_e : List ℝ)
    (p1 p2 : ChargedParticle) (z_mean : Option ℝ) (V : Option (List ℝ))
    (method : String) : Except CollErr (List ℝ × List ℝ) :=
  let mu := env.reduced_mass p1.mass p2.mass
  match resolveV_arr env T mu V with
  | .error e => .error e
  | .ok vs =>
    if vs.any fun v => decide (env.c ≤ |v|) then .error .relativity
    else if method ∈ zRequiredMethods ∧ z_mean = none then .error .missingZMean
    else
      let lambdaDe := List.zipWith (fun t nd => env.Debye_length t nd) T n_e
      let lambdaBroglie := vs.map fun v => env.hbar / (2 * mu * v)
      match impact_parameter_perp_arr env T p1 p2 (some vs) with
      | .error e => .error e
      | .ok bPerp =>
        if method = "classical" ∨ method = "ls" then
          .ok (List.zipWith (fun bp lb => if bp > lb then bp else lb)
                 bPerp lambdaBroglie, lambdaDe)
        else if method = "ls_min_interp" ∨ method = "GMS-1" then
          .ok (List.zipWith (fun lb bp => Real.sqrt (lb ^ 2 + bp ^ 2))
                 lambdaBroglie bPerp, lambdaDe)
        else if method = "ls_full_interp" ∨ method = "GMS-2" then
          let ionRadius := n_e.map fun nd => env.Wigner_Seitz_radius (nd / z_mean.getD 0)
          .ok (List.zipWith (fun lb bp => Real.sqrt (lb ^ 2 + bp ^ 2))
                 lambdaBroglie bPerp,
               List.zipWith (fun ld a => Real.sqrt (ld ^ 2 + a ^ 2)) lambdaDe ionRadius)
        else if method = "ls_clamp_mininterp" ∨ method = "GMS-3" then
          .ok (List.zipWith (fun lb bp => Real.sqrt (lb ^ 2 + bp ^ 2))
                 lambdaBroglie bPerp, lambdaDe)
        else if method = "hls_min_interp" ∨ method = "GMS-4" then
          .ok (List.zipWith (fun lb bp => Real.sqrt (lb ^ 2 + bp ^ 2))
                 lambdaBroglie bPerp, lambdaDe)
        else if method = "hls_max_interp" ∨ method = "GMS-5" then
          let ionRadius := n_e.map fun nd => env.Wigner_Seitz_radius (nd / z_mean.getD 0)
          .ok (bPerp,
               List.zipWith (fun ld a => Real.sqrt (ld ^ 2 + a ^ 2)) lambdaDe ionRadius)
        else if method = "hls_full_interp" ∨ method = "GMS-6" then
          let ionRadius := n_e.map fun nd => env.Wigner_Seitz_radius (nd / z_mean.getD 0)
          .ok (List.zipWith (fun lb bp => Real.sqrt (lb ^ 2 + bp ^ 2))
                 lambdaBroglie bPerp,
               List.zipWith (fun ld a => Real.sqrt (ld ^ 2 + a ^ 2)) lambdaDe ionRadius)
        else .error (.unknownMethod method)

/-- `Coulomb_logarithm`, array path: the logarithm formulas elementwise, the
clamp branch via the source's masked assignment
`ln_Lambda[ln_Lambda < 2] = 2` guarded by `np.any(ln_Lambda < 2)`. -/
noncomputable def Coulomb_logarithm_arr (env : CollisionEnv) (T n_e : List ℝ)
    (p1 p2 : ChargedParticle) (z_mean : Option ℝ) (V : Option (List ℝ))
    (method : String) : Except CollErr (List ℝ × Option CouplingWarning) :=
  match impact_parameter_arr env T n_e p1 p2 z_mean V method with
  | .error e => .error e
  | .ok (bmin, bmax) =>
    let step : Except CollErr (List ℝ) :=
      if method ∈ linearMethods then
        .ok (List.zipWith (fun bx bn => Real.log (bx / bn)) bmax bmin)
      else if method ∈ clampMethods then
        let l := List.zipWith (fun bx bn => Real.log (bx / bn)) bmax bmin
        .ok (if l.any fun x => decide (x < 2) then
               l.map fun x => if x < 2 then 2 else x
             else l)
      else if method ∈ hyperbolicMethods then
        .ok (List.zipWith (fun bx bn => 0.5 * Real.log (1 + bx ^ 2 / bn ^ 2)) bmax bmin)
      else .error (.unknownMethod method)
    match step with
    | .error e => .error e
    | .ok lnL => .ok (lnL, couplingWarning method (lnL.map some))

/-- An already-resolved ion species descriptor, as consumed by
`spectral_density` after the `Particle(ion)` conditioning: only its integer
charge number is read directly by the source (`ion.charge_number`); mass
enters only through the external `thermal_speed` collaborator. -/
structure IonSpecies where
  charge_number : ℤ
deriving DecidableEq

/-- A 3-vector of reals (`probe_vec`, `scatter_vec`, velocity rows). -/
abbrev Vec3 : Type := ℝ × ℝ × ℝ

/-- Euclidean norm of a 3-vector (`np.linalg.norm`). -/
noncomputable def vnorm (v : Vec3) : ℝ :=
  Real.sqrt (v.1 ^ 2 + v.2.1 ^ 2 + v.2.2 ^ 2)

/-- `v / np.linalg.norm(v)`. -/
noncomputable def vnormalize (v : Vec3) : Vec3 :=
  (v.1 / vnorm v, v.2.1 / vnorm v, v.2.2 / vnorm v)

/-- Dot product of two 3-vectors. -/
def vdot (a b : Vec3) : ℝ :=
  a.1 * b.1 + a.2.1 * b.2.1 + a.2.2 * b.2.2

/-- Scalar multiple of a 3-vector. -/
def vsmul (s : ℝ) (v : Vec3) : Vec3 :=
  (s * v.1, s * v.2.1, s * v.2.2)

/-- Difference of two 3-vectors. -/
def vsub (a b : Vec3) : Vec3 :=
  (a.1 - b.1, a.2.1 - b.2.1, a.2.2 - b.2.2)

/-- External collaborators and constants consumed by `thomson.py`:
`thermal_speed` for electrons and for a given ion species,
`plasma_frequency`, the susceptibility kernel
`permittivity_1D_Maxwellian` for electrons and for ions, and the speed of
light. -/
structure ThomsonEnv where
  c : ℝ
  thermal_speed_e : ℝ → ℝ
  thermal_speed_ion : ℝ → IonSpecies → ℝ
  plasma_frequency_e : ℝ → ℝ
  chi_e : List ℝ → List ℝ → ℝ → ℝ → List ℂ
  chi_i : List ℝ → List ℝ → ℝ → ℝ → IonSpecies → ℝ → List ℂ

/-- The `ValueError`s that `spectral_density` raises, each carrying the data
its message interpolates (the ion-mismatch message prints the `ifract` array
itself and the three other population counts; the electron-mismatch message
prints three counts). -/
inductive SDErr where
  | emptyIonSpecies
  | teCount (got expected : ℕ)
  | tiCount (got expected : ℕ)
  | ionMismatch (ifract : List ℝ) (nSpecies nTi nIonVel : ℕ)
  | electronMismatch (nEfract nTe nEvel : ℕ)

/-- The `Te` conditioning: a single temperature is repeated across all
electron populations, any other mismatched length raises. -/
def conditionTe (Te : List ℝ) (nE : ℕ) : Except SDErr (List ℝ) :=
  match Te with
  | [t] => .ok (List.replicate nE t)
  | _ => if Te.length ≠ nE then .error (.teCount Te.length nE) else .ok Te

/-- The `Ti` conditioning: a single temperature is repeated across all ion
species, any other mismatched length raises. -/
def conditionTi (Ti : List ℝ) (nI : ℕ) : Except SDErr (List ℝ) :=
  match Ti with
  | [t] => .ok (List.replicate nI t)
  | _ => if Ti.length ≠ nI then .error (.tiCount Ti.length nI) else .ok Ti

/-- `np.sum(rows, axis=0)` for a list of equal-length complex rows. -/
def sumRowsC (len : ℕ) (rows : List (List ℂ)) : List ℂ :=
  rows.foldl (fun acc r => List.zipWith (fun a b => a + b) acc r)
    (List.replicate len 0)

/-- `np.sum(rows, axis=0)` for a list of equal-length real rows. -/
def sumRowsR (len : ℕ) (rows : List (List ℝ)) : List ℝ :=
  rows.foldl (fun acc r => List.zipWith (fun a b => a + b) acc r)
    (List.replicate len 0)

/-- Mean ion charge `zbar = np.sum(ifract * ion_z)`. -/
noncomputable def zbar_of (ifr zs : List ℝ) : ℝ :=
  (List.zipWith (fun f z => f * z) ifr zs).sum

/-- Per-population electron densities `ne = efract * n`. -/
noncomputable def ne_of (efr : List ℝ) (n : ℝ) : List ℝ :=
  efr.map fun f => f * n

/-- Per-population ion densities `ni = ifract * n / zbar`. -/
noncomputable def ni_of (ifr : List ℝ) (n zbar : ℝ) : List ℝ :=
  ifr.map fun f => f * n / zbar

/-- The combined scattering wavenumber per wavelength sample, for given unit
probe/scatter vectors: angular frequencies `2 π c / λ`, in-plasma
wavenumbers from the dispersion relation, law of cosines at the scattering
angle `arccos(probe_vec · scatter_vec)`. -/
noncomputable def scatteredK (env : ThomsonEnv) (wavelengths : List ℝ)
    (probe_wavelength n : ℝ) (pv sv : Vec3) : List ℝ :=
  let wpe := env.plasma_frequency_e n
  let ws := wavelengths.map fun l => 2 * Real.pi * env.c / l
  let wl := 2 * Real.pi * env.c / probe_wavelength
  let ks := ws.map fun x => Real.sqrt (x ^ 2 - wpe ^ 2) / env.c
  let kl := Real.sqrt (wl ^ 2 - wpe ^ 2) / env.c
  let theta := Real.arccos (vdot pv sv)
  ks.map fun x => Real.sqrt (x ^ 2 + kl ^ 2 - 2 * x * kl * Real.cos theta)

/-- The physics pipeline of `spectral_density`, run after all the
conditioning / consistency checks succeeded, on the conditioned inputs
(`Te`, `Ti` already broadcast, fractions and velocity rows defaulted).
Returns `(np.mean(alpha), Skw)`. -/
noncomputable def spectral_density_calc (env : ThomsonEnv)
    (wavelengths : List ℝ) (probe_wavelength n : ℝ)
    (Te Ti efr ifr : List ℝ) (ion_species : List IonSpecies)
    (evel ivel : List Vec3) (probe_vec scatter_vec : Vec3) : ℝ × List ℝ :=
  let pv := vnormalize probe_vec
  let sv := vnormalize scatter_vec
  let vTe := Te.map env.thermal_speed_e
  let vTi := List.zipWith (fun t sp => env.thermal_speed_ion t sp) Ti ion_species
  let ion_z := ion_species.map fun sp => (sp.charge_number : ℝ)
  let zbar := zbar_of ifr ion_z
  let nev := ne_of efr n
  let niv := ni_of ifr n zbar
  let wpe := env.plasma_frequency_e n
  let ws := wavelengths.map fun l => 2 * Real.pi * env.c / l
  let wl := 2 * Real.pi * env.c / probe_wavelength
  let w := ws.map fun x => x - wl
  let k := scatteredK env wavelengths probe_wavelength n pv sv
  let k_vec := vsub sv pv
  let w_e := evel.map fun vv => List.zipWith (fun wj kj => wj - kj * vdot vv k_vec) w k
  let w_i := ivel.map fun vv => List.zipWith (fun wj kj => wj - kj * vdot vv k_vec) w k
  let alphaMean :=
    ((k.map fun kj => (vTe.map fun vt => Real.sqrt 2 * wpe / (kj * vt)).sum).sum) /
      ((k.length * vTe.length : ℕ) : ℝ)
  let xe := List.zipWith
    (fun vt row => List.zipWith (fun kj wj => 1 / vt * (1 / kj) * wj) k row) vTe w_e
  let xi := List.zipWith
    (fun vt row => List.zipWith (fun kj wj => 1 / vt * (1 / kj) * wj) k row) vTi w_i
  let chiE := List.zipWith (fun row q => env.chi_e row k q.1 q.2) w_e (Te.zip nev)
  let chiI := List.zipWith (fun row q => env.chi_i row k q.1 q.2.1 q.2.2.1 q.2.2.2)
    w_i (Ti.zip (niv.zip (ion_species.zip ion_z)))
  let sumChiE := sumRowsC k.length chiE
  let sumChiI := sumRowsC k.length chiI
  let epsilon := List.zipWith (fun a b => 1 + a + b) sumChiE sumChiI
  let econtr := List.zipWith
    (fun q row => List.zipWith
      (fun r xv => q.1 * (2 * Real.sqrt Real.pi / r.1 / q.2 *
        Complex.abs (1 - r.2.1 / r.2.2) ^ 2 * Real.exp (-(xv ^ 2))))
      (k.zip (sumChiE.zip epsilon)) row)
    (efr.zip vTe) xe
  let icontr := List.zipWith
    (fun q row => List.zipWith
      (fun r xv => q.1 * (2 * Real.sqrt Real.pi * q.2.2 / r.1 / q.2.1 *
        Complex.abs (r.2.1 / r.2.2) ^ 2 * Real.exp (-(xv ^ 2))))
      (k.zip (sumChiE.zip epsilon)) row)
    (ifr.zip (vTi.zip ion_z)) xi
  let Skw := List.zipWith (fun a b => a + b)
    (sumRowsR k.length econtr) (sumRowsR k.length icontr)
  (alphaMean, Skw)

/-- `spectral_density`: defaulting of `efract` / `ifract` / the velocity
rows, the empty-species check, `Te` / `Ti` conditioning, the two population
count consistency checks, then the physics pipeline. -/
noncomputable def spectral_density (env : ThomsonEnv)
    (wavelengths : List ℝ) (probe_wavelength n : ℝ)
    (Te Ti : List ℝ) (efract ifract : Option (List ℝ))
    (ion_species : List IonSpecies)
    (electron_vel ion_vel : Option (List Vec3))
    (probe_vec scatter_vec : Vec3) : Except SDErr (ℝ × List ℝ) :=
  let efr := efract.getD [1]
  let ifr := ifract.getD [1]
  let evel := electron_vel.getD (List.replicate efr.length ((0, 0, 0) : Vec3))
  let ivel := ion_vel.getD (List.replicate ifr.length ((0, 0, 0) : Vec3))
  if ion_species.length = 0 then .error .emptyIonSpecies
  else
    match conditionTe Te efr.length with
    | .error e => .error e
    | .ok Te' =>
      match conditionTi Ti ion_species.length with
      | .error e => .error e
      | .ok Ti' =>
        if ion_species.length ≠ ifr.length ∨ ivel.length ≠ ifr.length ∨
            Ti'.length ≠ ifr.length then
          .error (.ionMismatch ifr ion_species.length Ti'.length ivel.length)
        else if evel.length ≠ efr.length ∨ Te'.length ≠ efr.length then
          .error (.electronMismatch efr.length Te'.length evel.length)
        else
          .ok (spectral_density_calc env wavelengths probe_wavelength n
            Te' Ti' efr ifr ion_species evel ivel probe_vec scatter_vec)

/-! ### Helper facts about the method-name families -/

lemma hyperbolic_not_linear {m : String} (hm : m ∈ hyperbolicMethods) :
    m ∉ linearMethods ∧ m ∉ clampMethods := by
  fin_cases hm <;> exact ⟨by decide, by decide⟩

lemma clamp_not_linear {m : String} (hm : m ∈ clampMethods) :
    m ∉ linearMethods := by
  fin_cases hm <;> decide

/-- A concrete environment instance used by the witness theorems. -/
noncomputable def envA : CollisionEnv where
  hbar := 1
  eps0 := 1
  c := 100
  Debye_length := fun _ _ => 1
  thermal_speed := fun _ _ => 1
  Wigner_Seitz_radius := fun _ => 1
  reduced_mass := fun _ _ => 1

/-- A concrete neutral test particle (mass 1, zero charge magnitude) used by
the witness theorems. -/
noncomputable def pA : ChargedParticle := ⟨1, 0⟩

/-- C1: for every valid call to `Coulomb_logarithm`, with `(bmin, bmax)` the
impact parameters computed by `impact_parameter` for the same arguments, a
linear-family method returns `ln(bmax/bmin)` and a hyperbolic-family method
returns `0.5 * ln(1 + (bmax/bmin)^2)`, elementwise for array inputs, as a
dimensionless scalar or array. -/
theorem coulomb_logarithm_formula_families :
    (∀ (env : CollisionEnv) (T n_e : ℝ) (p1 p2 : ChargedParticle)
        (z V : Option ℝ) (method : String) (bmin bmax : ℝ),
      impact_parameter env T n_e p1 p2 z V method = .ok (bmin, bmax) →
      (method ∈ linearMethods →
        (Coulomb_logarithm env T n_e p1 p2 z V method).map Prod.fst =
          .ok (Real.log (bmax / bmin))) ∧
      (method ∈ hyperbolicMethods →
        (Coulomb_logarithm env T n_e p1 p2 z V method).map Prod.fst =
          .ok (0.5 * Real.log (1 + (bmax / bmin) ^ 2)))) ∧
    (∀ (env : CollisionEnv) (T n_e : List ℝ) (p1 p2 : ChargedParticle)
        (z : Option ℝ) (V : Option (List ℝ)) (method : String)
        (bmins bmaxs : List ℝ),
      impact_parameter_arr env T n_e p1 p2 z V method = .ok (bmins, bmaxs) →
      (method ∈ linearMethods →
        (Coulomb_logarithm_arr env T n_e p1 p2 z V method).map Prod.fst =
          .ok (List.zipWith (fun bx bn => Real.log (bx / bn)) bmaxs bmins)) ∧
      (method ∈ hyperbolicMethods →
        (Coulomb_logarithm_arr env T n_e p1 p2 z V method).map Prod.fst =
          .ok (List.zipWith (fun bx bn => 0.5 * Real.log (1 + (bx / bn) ^ 2))
            bmaxs bmins))) := by
  constructor
  · intro env T n_e p1 p2 z V method bmin bmax h
    constructor
    · intro hm
      simp only [Coulomb_logarithm, h]
      rw [if_pos hm]
      simp [Except.map]
    · intro hm
      obtain ⟨h1, h2⟩ := hyperbolic_not_linear hm
      simp only [Coulomb_logarithm, h]
      rw [if_neg h1, if_neg h2, if_pos hm]
      simp [Except.map, div_pow]
  · intro env T n_e p1 p2 z V method bmins bmaxs h
    constructor
    · intro hm
      simp only [Coulomb_logarithm_arr, h]
      rw [if_pos hm]
      simp [Except.map]
    · intro hm
      obtain ⟨h1, h2⟩ := hyperbolic_not_linear hm
      simp only [Coulomb_logarithm_arr, h]
      rw [if_neg h1, if_neg h2, if_pos hm]
      simp [Except.map, div_pow]

/-- Witness for C1 at a concrete input: the classical method on `envA`. -/
theorem coulomb_logarithm_formula_families_witness :
    impact_parameter envA 1 1 pA pA none (some 1) "classical" = .ok (1 / 2, 1) ∧
    (Coulomb_logarithm envA 1 1 pA pA none (some 1) "classical").map Prod.fst =
      .ok (Real.log (1 / (1 / 2))) := by
  have h : impact_parameter envA 1 1 pA pA none (some 1) "classical" =
      .ok (1 / 2, 1) := by
    norm_num +decide [impact_parameter, impact_parameter_perp, resolveV, envA, pA,
      zRequiredMethods]
  exact ⟨h, (coulomb_logarithm_formula_families.1 envA 1 1 pA pA none (some 1)
    "classical" (1 / 2) 1 h).1 (by simp [linearMethods])⟩

/-! ### C2: the per-method (bmin, bmax) table of `impact_parameter` -/

/-- The 90° closest-approach distance `|q1| |q2| / (4 π ε₀ μ V²)`. -/
noncomputable def rhoPerp (env : CollisionEnv) (p1 p2 : ChargedParticle) (v : ℝ) : ℝ :=
  p1.absCharge * p2.absCharge /
    (4 * Real.pi * env.eps0 * env.reduced_mass p1.mass p2.mass * v ^ 2)

/-- The de Broglie wavelength `ħ / (2 μ V)`. -/
noncomputable def lamBroglie (env : CollisionEnv) (p1 p2 : ChargedParticle) (v : ℝ) : ℝ :=
  env.hbar / (2 * env.reduced_mass p1.mass p2.mass * v)

lemma ite_gt_max (a b : ℝ) : (if a > b then a else b) = max a b := by
  rcases lt_or_ge b a with h | h
  · rw [if_pos h, max_eq_left h.le]
  · rw [if_neg (not_lt.mpr h), max_eq_right h]

lemma perp_ok (env : CollisionEnv) (T : ℝ) (p1 p2 : ChargedParticle) (v : ℝ)
    (hv0 : v ≠ 0) (hvc : |v| < env.c) :
    impact_parameter_perp env T p1 p2 (some v) = .ok (rhoPerp env p1 p2 v) := by
  simp only [impact_parameter_perp, resolveV, if_neg hv0,
    if_neg (not_le.mpr hvc), rhoPerp]

lemma perp_arr_ok (env : CollisionEnv) (T : List ℝ) (p1 p2 : ChargedParticle)
    (vs : List ℝ) (hv0 : ∀ x ∈ vs, x ≠ 0) (hvc : ∀ x ∈ vs, |x| < env.c) :
    impact_parameter_perp_arr env T p1 p2 (some vs) =
      .ok (vs.map fun v => rhoPerp env p1 p2 v) := by
  have h0 : (vs.any fun v => decide (v = 0)) = false := by
    simp only [List.any_eq_false, decide_eq_true_eq]
    exact hv0
  have hc : (vs.any fun v => decide (env.c ≤ |v|)) = false := by
    simp only [List.any_eq_false, decide_eq_true_eq, not_le]
    exact hvc
  simp only [impact_parameter_perp_arr, resolveV_arr, h0, Bool.false_eq_true,
    if_false, hc, rhoPerp]

/-- C2: for every valid call to `impact_parameter`, the returned pair
`(bmin, bmax)` equals the per-method table built from the Debye length, the
de Broglie wavelength `ħ/(2 μ V)` and the 90° closest-approach distance
`ρ⟂`, with the ion-sphere radius of `n_i = n_e / z_mean` appearing in the
interpolated `bmax`; classical `bmin` is the elementwise maximum. -/
theorem impact_parameter_method_table :
    (∀ (env : CollisionEnv) (T n_e : ℝ) (p1 p2 : ChargedParticle)
        (z V : Option ℝ) (v : ℝ),
      resolveV env T (env.reduced_mass p1.mass p2.mass) V = .ok v → v ≠ 0 →
      |v| < env.c →
      ∀ m ∈ (["classical", "ls"] : List String),
        impact_parameter env T n_e p1 p2 z V m =
          .ok (max (rhoPerp env p1 p2 v) (lamBroglie env p1 p2 v),
            env.Debye_length T n_e)) ∧
    (∀ (env : CollisionEnv) (T n_e : ℝ) (p1 p2 : ChargedParticle)
        (z V : Option ℝ) (v : ℝ),
      resolveV env T (env.reduced_mass p1.mass p2.mass) V = .ok v → v ≠ 0 →
      |v| < env.c →
      ∀ m ∈ (["ls_min_interp", "GMS-1", "ls_clamp_mininterp", "GMS-3",
          "hls_min_interp", "GMS-4"] : List String),
        impact_parameter env T n_e p1 p2 z V m =
          .ok (Real.sqrt (lamBroglie env p1 p2 v ^ 2 + rhoPerp env p1 p2 v ^ 2),
            env.Debye_length T n_e)) ∧
    (∀ (env : CollisionEnv) (T n_e : ℝ) (p1 p2 : ChargedParticle)
        (zv : ℝ) (V : Option ℝ) (v : ℝ),
      resolveV env T (env.reduced_mass p1.mass p2.mass) V = .ok v → v ≠ 0 →
      |v| < env.c →
      ∀ m ∈ (["ls_full_interp", "GMS-2", "hls_full_interp", "GMS-6"] : List String),
        impact_parameter env T n_e p1 p2 (some zv) V m =
          .ok (Real.sqrt (lamBroglie env p1 p2 v ^ 2 + rhoPerp env p1 p2 v ^ 2),
            Real.sqrt (env.Debye_length T n_e ^ 2 +
              env.Wigner_Seitz_radius (n_e / zv) ^ 2))) ∧
    (∀ (env : CollisionEnv) (T n_e : ℝ) (p1 p2 : ChargedParticle)
        (zv : ℝ) (V : Option ℝ) (v : ℝ),
      resolveV env T (env.reduced_mass p1.mass p2.mass) V = .ok v → v ≠ 0 →
      |v| < env.c →
      ∀ m ∈ (["hls_max_interp", "GMS-5"] : List String),
        impact_parameter env T n_e p1 p2 (some zv) V m =
          .ok (rhoPerp env p1 p2 v,
            Real.sqrt (env.Debye_length T n_e ^ 2 +
              env.Wigner_Seitz_radius (n_e / zv) ^ 2))) ∧
    (∀ (env : CollisionEnv) (T n_e : List ℝ) (p1 p2 : ChargedParticle)
        (z : Option ℝ) (V : Option (List ℝ)) (vs : List ℝ),
      resolveV_arr env T (env.reduced_mass p1.mass p2.mass) V = .ok vs →
      (∀ x ∈ vs, x ≠ 0) → (∀ x ∈ vs, |x| < env.c) →
      ∀ m ∈ (["classical", "ls"] : List String),
        impact_parameter_arr env T n_e p1 p2 z V m =
          .ok (List.zipWith (fun bp lb => max bp lb)
              (vs.map fun v => rhoPerp env p1 p2 v)
              (vs.map fun v => lamBroglie env p1 p2 v),
            List.zipWith (fun t nd => env.Debye_length t nd) T n_e)) := by
  refine ⟨?_, ?_, ?_, ?_, ?_⟩
  · intro env T n_e p1 p2 z V v hv hv0 hvc m hm
    fin_cases hm <;>
      simp +decide [impact_parameter, hv, perp_ok env T p1 p2 v hv0 hvc,
        not_le.mpr hvc, zRequiredMethods, ite_gt_max, rhoPerp, lamBroglie]
  · intro env T n_e p1 p2 z V v hv hv0 hvc m hm
    fin_cases hm <;>
      simp +decide [impact_parameter, hv, perp_ok env T p1 p2 v hv0 hvc,
        not_le.mpr hvc, zRequiredMethods, rhoPerp, lamBroglie]
  · intro env T n_e p1 p2 zv V v hv hv0 hvc m hm
    fin_cases hm <;>
      simp +decide [impact_parameter, hv, perp_ok env T p1 p2 v hv0 hvc,
        not_le.mpr hvc, zRequiredMethods, rhoPerp, lamBroglie]
  · intro env T n_e p1 p2 zv V v hv hv0 hvc m hm
    fin_cases hm <;>
      simp +decide [impact_parameter, hv, perp_ok env T p1 p2 v hv0 hvc,
        not_le.mpr hvc, zRequiredMethods, rhoPerp, lamBroglie]
  · intro env T n_e p1 p2 z V vs hv hv0 hvc m hm
    have hc : (vs.any fun v => decide (env.c ≤ |v|)) = false := by
      simp only [List.any_eq_false, decide_eq_true_eq, not_le]
      exact hvc
    fin_cases hm <;>
      simp +decide [impact_parameter_arr, hv, perp_arr_ok env T p1 p2 vs hv0 hvc,
        hc, zRequiredMethods, ite_gt_max, rhoPerp, lamBroglie]

/-- Witness for C2 at a concrete input: classical method on `envA`. -/
theorem impact_parameter_method_table_witness :
    (1 : ℝ) ≠ 0 ∧
    impact_parameter envA 1 1 pA pA none (some 1) "classical" =
      .ok (max (rhoPerp envA pA pA 1) (lamBroglie envA pA pA 1),
        envA.Debye_length 1 1) := by
  refine ⟨by norm_num, ?_⟩
  exact impact_parameter_method_table.1 envA 1 1 pA pA none (some 1) 1
    (by norm_num [resolveV]) (by norm_num) (by norm_num [envA])
    "classical" (by simp)

/-! ### C3: the GMS-3 clamp -/

lemma map_clamp_id {l : List ℝ} (h : ∀ x ∈ l, ¬x < 2) :
    l.map (fun x => if x < 2 then 2 else x) = l := by
  induction l with
  | nil => rfl
  | cons a t ih =>
    simp only [List.map_cons, if_neg (h a (by simp)),
      ih fun x hx => h x (by simp [hx]), List.cons.injEq, and_self]

/-- C3: `Coulomb_logarithm` with the clamp method computes `ln(bmax/bmin)`
and then replaces every element strictly below 2 with exactly 2, so every
element of the returned value is at least 2 (scalar and array paths). -/
theorem coulomb_clamp_at_two :
    (∀ (env : CollisionEnv) (T n_e : ℝ) (p1 p2 : ChargedParticle)
        (z V : Option ℝ) (m : String) (l : ℝ) (w : Option CouplingWarning),
      m ∈ clampMethods →
      Coulomb_logarithm env T n_e p1 p2 z V m = .ok (l, w) →
      (∃ bmin bmax, impact_parameter env T n_e p1 p2 z V m = .ok (bmin, bmax) ∧
        l = if Real.log (bmax / bmin) < 2 then 2 else Real.log (bmax / bmin)) ∧
      2 ≤ l) ∧
    (∀ (env : CollisionEnv) (T n_e : List ℝ) (p1 p2 : ChargedParticle)
        (z : Option ℝ) (V : Option (List ℝ)) (m : String) (ls : List ℝ)
        (w : Option CouplingWarning),
      m ∈ clampMethods →
      Coulomb_logarithm_arr env T n_e p1 p2 z V m = .ok (ls, w) →
      (∃ bmins bmaxs,
        impact_parameter_arr env T n_e p1 p2 z V m = .ok (bmins, bmaxs) ∧
        ls = (List.zipWith (fun bx bn => Real.log (bx / bn)) bmaxs bmins).map
          fun x => if x < 2 then 2 else x) ∧
      ∀ x ∈ ls, 2 ≤ x) := by
  constructor
  · intro env T n_e p1 p2 z V m l w hm h
    have hnl := clamp_not_linear hm
    cases hip : impact_parameter env T n_e p1 p2 z V m with
    | error e =>
      rw [Coulomb_logarithm, hip] at h
      exact (Except.noConfusion h)
    | ok pr =>
      obtain ⟨bmin, bmax⟩ := pr
      simp only [Coulomb_logarithm, hip, if_neg hnl, if_pos hm] at h
      rw [Except.ok.injEq, Prod.mk.injEq] at h
      obtain ⟨hl, _⟩ := h
      refine ⟨⟨bmin, bmax, rfl, hl.symm⟩, ?_⟩
      rcases lt_or_ge (Real.log (bmax / bmin)) 2 with hlt | hge
      · rw [← hl, if_pos hlt]
      · rw [← hl, if_neg (not_lt.mpr hge)]
        exact hge
  · intro env T n_e p1 p2 z V m ls w hm h
    have hnl := clamp_not_linear hm
    cases hip : impact_parameter_arr env T n_e p1 p2 z V m with
    | error e =>
      rw [Coulomb_logarithm_arr, hip] at h
      exact (Except.noConfusion h)
    | ok pr =>
      obtain ⟨bmins, bmaxs⟩ := pr
      simp only [Coulomb_logarithm_arr, hip, if_neg hnl, if_pos hm] at h
      rw [Except.ok.injEq, Prod.mk.injEq] at h
      obtain ⟨hl, _⟩ := h
      have hform : ls = (List.zipWith (fun bx bn => Real.log (bx / bn)) bmaxs bmins).map
          fun x => if x < 2 then 2 else x := by
        rcases hany : (List.zipWith (fun bx bn => Real.log (bx / bn)) bmaxs bmins).any
            fun x => decide (x < 2) with _ | _
        · rw [← hl, if_neg (by rw [hany]; exact Bool.false_ne_true)]
          rw [map_clamp_id]
          intro x hx
          have := List.any_eq_false.mp hany x hx
          simpa using this
        · rw [← hl, if_pos (by rw [hany])]
      refine ⟨⟨bmins, bmaxs, rfl, hform⟩, ?_⟩
      intro x hx
      rw [hform] at hx
      obtain ⟨y, _, rfl⟩ := List.mem_map.mp hx
      rcases lt_or_ge y 2 with hlt | hge
      · rw [if_pos hlt]
      · rw [if_neg (not_lt.mpr hge)]
        exact hge

/-- Witness for C3 at a concrete input: the clamp raises `ln Λ = 0` to 2. -/
theorem coulomb_clamp_at_two_witness :
    Coulomb_logarithm envA 1 1 pA pA none (some (1 / 2)) "ls_clamp_mininterp" =
      .ok (2, some .strongCoupling) ∧ (2 : ℝ) ≤ 2 := by
  have hb : impact_parameter envA 1 1 pA pA none (some (1 / 2)) "ls_clamp_mininterp" =
      .ok (1, 1) := by
    norm_num +decide [impact_parameter, impact_parameter_perp, resolveV, envA, pA,
      zRequiredMethods, Real.sqrt_one, abs_of_pos (show (0 : ℝ) < 1 / 2 by norm_num)]
  have hc : Coulomb_logarithm envA 1 1 pA pA none (some (1 / 2)) "ls_clamp_mininterp" =
      .ok (2, some .strongCoupling) := by
    simp only [Coulomb_logarithm, hb]
    norm_num +decide [couplingWarning, nanLt, linearMethods, clampMethods,
      Real.log_one,
      decide_eq_false (show ¬((2 : ℝ) < 2) by norm_num),
      decide_eq_true (show (2 : ℝ) < 4 by norm_num)]
  exact ⟨hc, (coulomb_clamp_at_two.1 envA 1 1 pA pA none (some (1 / 2))
    "ls_clamp_mininterp" 2 (some .strongCoupling) (by simp [clampMethods]) hc).2⟩

/-! ### C6: the `z_mean` requirement -/

lemma perp_zero (env : CollisionEnv) (T : ℝ) (p1 p2 : ChargedParticle) :
    impact_parameter_perp env T p1 p2 (some 0) = .error .zeroVelocity := by
  simp [impact_parameter_perp, resolveV]

/-- C6: `Coulomb_logarithm` (via `impact_parameter`) fails with the
missing-`z_mean` configuration error exactly when the method is one of
`ls_full_interp`/GMS-2, `hls_max_interp`/GMS-5, `hls_full_interp`/GMS-6 and
`z_mean` is the NaN sentinel; a numeric `z_mean` never produces that error;
the other four methods succeed with `z_mean` unset. -/
theorem coulomb_zmean_requirement :
    (∀ (env : CollisionEnv) (T n_e : ℝ) (p1 p2 : ChargedParticle)
        (V : Option ℝ) (v : ℝ),
      resolveV env T (env.reduced_mass p1.mass p2.mass) V = .ok v → |v| < env.c →
      ∀ m ∈ zRequiredMethods,
        Coulomb_logarithm env T n_e p1 p2 none V m = .error .missingZMean) ∧
    (∀ (env : CollisionEnv) (T n_e : ℝ) (p1 p2 : ChargedParticle)
        (V : Option ℝ) (v : ℝ),
      resolveV env T (env.reduced_mass p1.mass p2.mass) V = .ok v → |v| < env.c →
      ∀ m ∈ zRequiredMethods, ∀ zv : ℝ,
        Coulomb_logarithm env T n_e p1 p2 (some zv) V m ≠ .error .missingZMean) ∧
    (∀ (env : CollisionEnv) (T n_e : ℝ) (p1 p2 : ChargedParticle)
        (V : Option ℝ) (v : ℝ),
      resolveV env T (env.reduced_mass p1.mass p2.mass) V = .ok v → v ≠ 0 →
      |v| < env.c →
      ∀ m ∈ (["classical", "ls", "ls_min_interp", "GMS-1", "ls_clamp_mininterp",
          "GMS-3", "hls_min_interp", "GMS-4"] : List String),
        ∀ e : CollErr, Coulomb_logarithm env T n_e p1 p2 none V m ≠ .error e) := by
  refine ⟨?_, ?_, ?_⟩
  · intro env T n_e p1 p2 V v hv hvc m hm
    fin_cases hm <;>
      simp +decide [Coulomb_logarithm, impact_parameter, hv, not_le.mpr hvc,
        zRequiredMethods]
  · intro env T n_e p1 p2 V v hv hvc m hm zv
    by_cases hv0 : v = 0
    · subst hv0
      fin_cases hm <;>
        simp +decide [Coulomb_logarithm, impact_parameter, hv,
          not_le.mpr (show (0 : ℝ) < env.c by simpa using hvc),
          perp_zero, zRequiredMethods]
    · fin_cases hm <;>
        simp +decide [Coulomb_logarithm, impact_parameter, hv, not_le.mpr hvc,
          perp_ok env T p1 p2 v hv0 hvc, zRequiredMethods, linearMethods,
          clampMethods, hyperbolicMethods]
  · intro env T n_e p1 p2 V v hv hv0 hvc m hm e
    fin_cases hm <;>
      simp +decide [Coulomb_logarithm, impact_parameter, hv, not_le.mpr hvc,
        perp_ok env T p1 p2 v hv0 hvc, zRequiredMethods, linearMethods,
        clampMethods, hyperbolicMethods]

/-- Witness for C6 at a concrete input: GMS-6 with the NaN sentinel fails. -/
theorem coulomb_zmean_requirement_witness :
    Coulomb_logarithm envA 1 1 pA pA none (some 1) "GMS-6" =
      .error .missingZMean ∧
    Coulomb_logarithm envA 1 1 pA pA (some 2) (some 1) "GMS-6" ≠
      .error .missingZMean := by
  constructor
  · exact coulomb_zmean_requirement.1 envA 1 1 pA pA (some 1) 1
      (by norm_num [resolveV]) (by norm_num [envA]) "GMS-6"
      (by simp [zRequiredMethods])
  · exact coulomb_zmean_requirement.2.1 envA 1 1 pA pA (some 1) 1
      (by norm_num [resolveV]) (by norm_num [envA]) "GMS-6"
      (by simp [zRequiredMethods]) 2

/-! ### C5: the coupling warnings -/

lemma any_nanLt_iff (lnvals : List (Option ℝ)) (c : ℝ) :
    ((lnvals.any fun x => nanLt x c) = true) ↔
      ∃ v : ℝ, some v ∈ lnvals ∧ v < c := by
  rw [List.any_eq_true]
  constructor
  · rintro ⟨x, hx, hpx⟩
    match x with
    | none => exact absurd hpx (by simp [nanLt])
    | some v =>
      refine ⟨v, hx, ?_⟩
      simpa [nanLt] using hpx
  · rintro ⟨v, hv, hlt⟩
    exact ⟨some v, hv, by simpa [nanLt] using hlt⟩

/-- A second concrete environment: the Debye length returns the temperature
argument, so array inputs can drive `ln Λ` to chosen values. -/
noncomputable def envC5 : CollisionEnv where
  hbar := 2
  eps0 := 1
  c := 100
  Debye_length := fun t _ => t
  thermal_speed := fun _ _ => 1
  Wigner_Seitz_radius := fun _ => 1
  reduced_mass := fun _ _ => 1

lemma himp_envC5 :
    impact_parameter_arr envC5 [Real.exp 1, Real.exp 3] [1, 1] pA pA none
      (some [1, 1]) "classical" = .ok ([1, 1], [Real.exp 1, Real.exp 3]) := by
  norm_num +decide [impact_parameter_arr, impact_parameter_perp_arr,
    resolveV_arr, envC5, pA, zRequiredMethods, abs_one]

/-- Counterexample to C5 as stated: with the linear method `"classical"` and
computed values `[1, 3]`, the element `3` lies in `[2, 4)` but the emitted
warning is the weak-coupling one, not the strong-coupling one — the strong
check sits in an `elif` and is skipped once the weak branch fires. -/
theorem coupling_warning_precedence_counterexample :
    Coulomb_logarithm_arr envC5 [Real.exp 1, Real.exp 3] [1, 1] pA pA none
        (some [1, 1]) "classical" = .ok ([1, 3], some .weakCoupling) ∧
    (2 : ℝ) ≤ 3 ∧ (3 : ℝ) < 4 ∧
    some CouplingWarning.weakCoupling ≠ some CouplingWarning.strongCoupling := by
  refine ⟨?_, by norm_num, by norm_num, by decide⟩
  norm_num +decide [Coulomb_logarithm_arr, himp_envC5, linearMethods,
    couplingWarning, nanLt, Real.log_exp,
    decide_eq_true (show (1 : ℝ) < 2 by norm_num)]

/-- C5 (amended): the weak-coupling warning fires iff some non-NaN element is
below 2 and the method is linear-family; the strong-coupling warning fires
iff the weak branch did not fire and some non-NaN element is below 4 (the
two checks are sequential, so at most one warning is emitted per call); NaN
elements never trigger either warning; and for every recognized method a
successful `impact_parameter` call always yields a returned value — warnings
never become exceptions. -/
theorem coupling_warning_spec :
    (∀ (method : String) (lnvals : List (Option ℝ)),
      couplingWarning method lnvals = some .weakCoupling ↔
        (∃ v : ℝ, some v ∈ lnvals ∧ v < 2) ∧ method ∈ linearMethods) ∧
    (∀ (method : String) (lnvals : List (Option ℝ)),
      couplingWarning method lnvals = some .strongCoupling ↔
        ¬((∃ v : ℝ, some v ∈ lnvals ∧ v < 2) ∧ method ∈ linearMethods) ∧
          ∃ v : ℝ, some v ∈ lnvals ∧ v < 4) ∧
    (∀ (method : String) (n : ℕ),
      couplingWarning method (List.replicate n none) = none) ∧
    (∀ (env : CollisionEnv) (T n_e : List ℝ) (p1 p2 : ChargedParticle)
        (z : Option ℝ) (V : Option (List ℝ)) (method : String) (bm bx : List ℝ),
      impact_parameter_arr env T n_e p1 p2 z V method = .ok (bm, bx) →
      method ∈ linearMethods ++ clampMethods ++ hyperbolicMethods →
      ∃ l w, Coulomb_logarithm_arr env T n_e p1 p2 z V method = .ok (l, w)) := by
  refine ⟨?_, ?_, ?_, ?_⟩
  · intro method lnvals
    by_cases h1 : ((lnvals.any fun x => nanLt x 2) = true) ∧ method ∈ linearMethods
    · rw [couplingWarning, if_pos h1]
      exact ⟨fun _ => ⟨(any_nanLt_iff _ _).mp h1.1, h1.2⟩, fun _ => rfl⟩
    · rw [couplingWarning, if_neg h1]
      constructor
      · intro h
        by_cases h2 : (lnvals.any fun x => nanLt x 4) = true
        · rw [if_pos h2] at h
          exact absurd h (by decide)
        · rw [if_neg h2] at h
          exact absurd h (by decide)
      · rintro ⟨⟨v, hv, hlt⟩, hmem⟩
        exact absurd ⟨(any_nanLt_iff _ _).mpr ⟨v, hv, hlt⟩, hmem⟩ h1
  · intro method lnvals
    by_cases h1 : ((lnvals.any fun x => nanLt x 2) = true) ∧ method ∈ linearMethods
    · rw [couplingWarning, if_pos h1]
      constructor
      · intro h
        exact absurd h (by decide)
      · rintro ⟨hno, _⟩
        exact absurd ⟨(any_nanLt_iff _ _).mp h1.1, h1.2⟩ hno
    · rw [couplingWarning, if_neg h1]
      by_cases h2 : (lnvals.any fun x => nanLt x 4) = true
      · rw [if_pos h2]
        refine ⟨fun _ => ⟨?_, (any_nanLt_iff _ _).mp h2⟩, fun _ => rfl⟩
        intro hc
        exact h1 ⟨(any_nanLt_iff _ _).mpr hc.1, hc.2⟩
      · rw [if_neg h2]
        constructor
        · intro h
          exact absurd h (by decide)
        · rintro ⟨_, hex⟩
          exact (h2 ((any_nanLt_iff _ _).mpr hex)).elim
  · intro method n
    have h : ∀ c : ℝ,
        ((List.replicate n (none : Option ℝ)).any fun x => nanLt x c) = false := by
      intro c
      rw [List.any_eq_false]
      intro x hx
      rw [List.eq_of_mem_replicate hx]
      simp [nanLt]
    simp [couplingWarning, h 2, h 4]
  · intro env T n_e p1 p2 z V method bm bx himp hmem
    simp only [Coulomb_logarithm_arr, himp]
    rcases List.mem_append.mp hmem with h | h
    · rcases List.mem_append.mp h with h | h
      · rw [if_pos h]
        exact ⟨_, _, rfl⟩
      · obtain hnl := clamp_not_linear h
        rw [if_neg hnl, if_pos h]
        exact ⟨_, _, rfl⟩
    · obtain ⟨hn1, hn2⟩ := hyperbolic_not_linear h
      rw [if_neg hn1, if_neg hn2, if_pos h]
      exact ⟨_, _, rfl⟩

/-- Witness for C5 (amended) at a concrete input. -/
theorem coupling_warning_spec_witness :
    impact_parameter_arr envC5 [Real.exp 1, Real.exp 3] [1, 1] pA pA none
        (some [1, 1]) "classical" = .ok ([1, 1], [Real.exp 1, Real.exp 3]) ∧
    ∃ l w, Coulomb_logarithm_arr envC5 [Real.exp 1, Real.exp 3] [1, 1] pA pA
      none (some [1, 1]) "classical" = .ok (l, w) :=
  ⟨himp_envC5, coupling_warning_spec.2.2.2 envC5 [Real.exp 1, Real.exp 3]
    [1, 1] pA pA none (some [1, 1]) "classical" [1, 1]
    [Real.exp 1, Real.exp 3] himp_envC5 (by decide)⟩

/-! ### C9: normalization invariance of the geometry vectors -/

lemma vnormalize_smul {s : ℝ} (hs : 0 < s) (v : Vec3) :
    vnormalize (vsmul s v) = vnormalize v := by
  unfold vnormalize vnorm vsmul
  have hn : Real.sqrt ((s * v.1) ^ 2 + (s * v.2.1) ^ 2 + (s * v.2.2) ^ 2) =
      s * Real.sqrt (v.1 ^ 2 + v.2.1 ^ 2 + v.2.2 ^ 2) := by
    rw [show (s * v.1) ^ 2 + (s * v.2.1) ^ 2 + (s * v.2.2) ^ 2 =
        s ^ 2 * (v.1 ^ 2 + v.2.1 ^ 2 + v.2.2 ^ 2) by ring]
    rw [Real.sqrt_mul (sq_nonneg s), Real.sqrt_sq hs.le]
  rw [hn]
  refine Prod.ext ?_ (Prod.ext ?_ ?_) <;>
    · simp only
      exact mul_div_mul_left _ _ hs.ne'

/-- A concrete Thomson environment for the witness theorems. -/
noncomputable def envT : ThomsonEnv where
  c := 1
  thermal_speed_e := fun _ => 1
  thermal_speed_ion := fun _ _ => 1
  plasma_frequency_e := fun _ => 1
  chi_e := fun _ _ _ _ => []
  chi_i := fun _ _ _ _ _ _ => []

/-- C9: `spectral_density` is invariant under rescaling `probe_vec` and
`scatter_vec` by positive factors, because both vectors are normalized to
unit length internally before any use. -/
theorem spectral_density_normalization_invariance :
    ∀ (env : ThomsonEnv) (wavelengths : List ℝ) (pw n : ℝ) (Te Ti : List ℝ)
      (efract ifract : Option (List ℝ)) (sp : List IonSpecies)
      (evel ivel : Option (List Vec3)) (pv sv : Vec3) (s t : ℝ),
      0 < s → 0 < t →
      spectral_density env wavelengths pw n Te Ti efract ifract sp evel ivel
        (vsmul s pv) (vsmul t sv) =
      spectral_density env wavelengths pw n Te Ti efract ifract sp evel ivel
        pv sv := by
  intro env wl pw n Te Ti efract ifract sp evel ivel pv sv s t hs ht
  have hcalc : ∀ (Te' Ti' efr ifr : List ℝ) (evel' ivel' : List Vec3),
      spectral_density_calc env wl pw n Te' Ti' efr ifr sp evel' ivel'
        (vsmul s pv) (vsmul t sv) =
      spectral_density_calc env wl pw n Te' Ti' efr ifr sp evel' ivel' pv sv := by
    intro Te' Ti' efr ifr evel' ivel'
    unfold spectral_density_calc
    rw [vnormalize_smul hs, vnormalize_smul ht]
  simp only [spectral_density, hcalc]

/-- Witness for C9 at a concrete input (scaling both vectors by 2). -/
theorem spectral_density_normalization_invariance_witness :
    (0 : ℝ) < 2 ∧
    spectral_density envT [1] 1 1 [1] [1] none none [⟨1⟩] none none
        (vsmul 2 (1, 0, 0)) (vsmul 2 (0, 1, 0)) =
      spectral_density envT [1] 1 1 [1] [1] none none [⟨1⟩] none none
        (1, 0, 0) (0, 1, 0) :=
  ⟨by norm_num, spectral_density_normalization_invariance envT [1] 1 1 [1] [1]
    none none [⟨1⟩] none none (1, 0, 0) (0, 1, 0) 2 2 (by norm_num) (by norm_num)⟩

/-! ### C8: the charge-neutrality invariant -/

lemma sum_map_mul (l : List ℝ) (c : ℝ) :
    (l.map fun x => x * c).sum = l.sum * c := by
  induction l with
  | nil => simp
  | cons a t ih =>
    simp only [List.map_cons, List.sum_cons, ih]
    ring

lemma sum_zipWith_mul_left (l z : List ℝ) (c : ℝ) :
    (List.zipWith (fun f zz => f * c * zz) l z).sum =
      c * (List.zipWith (fun f zz => f * zz) l z).sum := by
  induction l generalizing z with
  | nil => simp
  | cons a t ih =>
    cases z with
    | nil => simp
    | cons b zt =>
      simp only [List.zipWith_cons_cons, List.sum_cons, ih]
      ring

/-- C8: with `efract` and `ifract` each summing to 1, the densities derived
by `spectral_density` — `ne = efract * n` and `ni = ifract * n / zbar` with
`zbar = Σ ifract * Z` — satisfy charge neutrality: the total ion charge
density `Σ ni * Z` equals the total electron density `Σ ne = n`. -/
theorem spectral_density_charge_neutrality :
    ∀ (efr ifr zs : List ℝ) (n : ℝ),
      efr.sum = 1 → ifr.sum = 1 → zbar_of ifr zs ≠ 0 →
      (List.zipWith (fun ni z => ni * z) (ni_of ifr n (zbar_of ifr zs)) zs).sum = n ∧
      (ne_of efr n).sum = n := by
  intro efr ifr zs n he hi hz
  constructor
  · have h1 : List.zipWith (fun ni z => ni * z) (ni_of ifr n (zbar_of ifr zs)) zs =
        List.zipWith (fun f zz => f * (n / zbar_of ifr zs) * zz) ifr zs := by
      unfold ni_of
      rw [List.zipWith_map_left]
      have : (fun (a b : ℝ) => a * n / zbar_of ifr zs * b) =
          fun (a b : ℝ) => a * (n / zbar_of ifr zs) * b := by
        funext a b
        ring
      rw [this]
    rw [h1, sum_zipWith_mul_left]
    have hzz : (List.zipWith (fun f zz : ℝ => f * zz) ifr zs).sum = zbar_of ifr zs := rfl
    rw [hzz, div_mul_cancel₀ _ hz]
  · unfold ne_of
    rw [sum_map_mul, he, one_mul]

/-- Witness for C8 at a concrete input: one electron population, one doubly
charged ion species. -/
theorem spectral_density_charge_neutrality_witness :
    zbar_of [1] [2] ≠ 0 ∧
    (List.zipWith (fun ni z => ni * z) (ni_of [1] 5 (zbar_of [1] [2])) [2]).sum = 5 ∧
    (ne_of [1] 5).sum = 5 := by
  have hz : zbar_of [1] [2] ≠ 0 := by
    norm_num [zbar_of]
  have h := spectral_density_charge_neutrality [1] [1] [2] 5 (by norm_num)
    (by norm_num) hz
  exact ⟨hz, h.1, h.2⟩

/-! ### C7: the population-count consistency checks -/

lemma conditionTe_error {Te : List ℝ} {nE : ℕ} (h1 : Te.length ≠ 1)
    (h2 : Te.length ≠ nE) : conditionTe Te nE = .error (.teCount Te.length nE) := by
  cases Te with
  | nil =>
    rw [show conditionTe [] nE = if ([] : List ℝ).length ≠ nE then
        .error (.teCount ([] : List ℝ).length nE) else .ok [] from rfl, if_pos h2]
  | cons a t =>
    cases t with
    | nil => exact absurd rfl h1
    | cons b r =>
      rw [show conditionTe (a :: b :: r) nE = if (a :: b :: r).length ≠ nE then
          .error (.teCount (a :: b :: r).length nE) else .ok (a :: b :: r) from rfl,
        if_pos h2]

lemma conditionTi_error {Ti : List ℝ} {nI : ℕ} (h1 : Ti.length ≠ 1)
    (h2 : Ti.length ≠ nI) : conditionTi Ti nI = .error (.tiCount Ti.length nI) := by
  cases Ti with
  | nil =>
    rw [show conditionTi [] nI = if ([] : List ℝ).length ≠ nI then
        .error (.tiCount ([] : List ℝ).length nI) else .ok [] from rfl, if_pos h2]
  | cons a t =>
    cases t with
    | nil => exact absurd rfl h1
    | cons b r =>
      rw [show conditionTi (a :: b :: r) nI = if (a :: b :: r).length ≠ nI then
          .error (.tiCount (a :: b :: r).length nI) else .ok (a :: b :: r) from rfl,
        if_pos h2]

/-- C7: `spectral_density` fails with a count-reporting configuration error
whenever the population counts implied by `ifract`, `ion_species`, `Ti` and
`ion_vel` do not all agree, or those implied by `efract`, `Te` and
`electron_vel` do not all agree, for arbitrary values of every other
argument and in the source's check order: a non-broadcastable `Te` length
raises the Te-count error, then a non-broadcastable `Ti` length the
Ti-count error, then any ion-side disagreement the ion mismatch error
carrying the `ifract` array and the three observed counts, then any
electron-side disagreement the electron mismatch error carrying the three
observed counts; no numeric result is produced in any of these cases. -/
theorem spectral_density_count_mismatch :
    (∀ (env : ThomsonEnv) (wl : List ℝ) (pw n : ℝ) (Te Ti : List ℝ)
        (efract ifract : Option (List ℝ)) (sp : List IonSpecies)
        (electron_vel ion_vel : Option (List Vec3)) (pv sv : Vec3),
      sp.length ≠ 0 → Te.length ≠ 1 → Te.length ≠ (efract.getD [1]).length →
      spectral_density env wl pw n Te Ti efract ifract sp electron_vel ion_vel
          pv sv =
        .error (.teCount Te.length (efract.getD [1]).length)) ∧
    (∀ (env : ThomsonEnv) (wl : List ℝ) (pw n : ℝ) (Te Ti : List ℝ)
        (efract ifract : Option (List ℝ)) (sp : List IonSpecies)
        (electron_vel ion_vel : Option (List Vec3)) (pv sv : Vec3)
        (Te' : List ℝ),
      sp.length ≠ 0 →
      conditionTe Te (efract.getD [1]).length = .ok Te' →
      Ti.length ≠ 1 → Ti.length ≠ sp.length →
      spectral_density env wl pw n Te Ti efract ifract sp electron_vel ion_vel
          pv sv =
        .error (.tiCount Ti.length sp.length)) ∧
    (∀ (env : ThomsonEnv) (wl : List ℝ) (pw n : ℝ) (Te Ti : List ℝ)
        (efract ifract : Option (List ℝ)) (sp : List IonSpecies)
        (electron_vel ion_vel : Option (List Vec3)) (pv sv : Vec3)
        (Te' Ti' : List ℝ),
      sp.length ≠ 0 →
      conditionTe Te (efract.getD [1]).length = .ok Te' →
      conditionTi Ti sp.length = .ok Ti' →
      (sp.length ≠ (ifract.getD [1]).length ∨
        (ion_vel.getD (List.replicate (ifract.getD [1]).length
          ((0, 0, 0) : Vec3))).length ≠ (ifract.getD [1]).length ∨
        Ti'.length ≠ (ifract.getD [1]).length) →
      spectral_density env wl pw n Te Ti efract ifract sp electron_vel ion_vel
          pv sv =
        .error (.ionMismatch (ifract.getD [1]) sp.length Ti'.length
          (ion_vel.getD (List.replicate (ifract.getD [1]).length
            ((0, 0, 0) : Vec3))).length)) ∧
    (∀ (env : ThomsonEnv) (wl : List ℝ) (pw n : ℝ) (Te Ti : List ℝ)
        (efract ifract : Option (List ℝ)) (sp : List IonSpecies)
        (electron_vel ion_vel : Option (List Vec3)) (pv sv : Vec3)
        (Te' Ti' : List ℝ),
      sp.length ≠ 0 →
      conditionTe Te (efract.getD [1]).length = .ok Te' →
      conditionTi Ti sp.length = .ok Ti' →
      sp.length = (ifract.getD [1]).length →
      (ion_vel.getD (List.replicate (ifract.getD [1]).length
        ((0, 0, 0) : Vec3))).length = (ifract.getD [1]).length →
      Ti'.length = (ifract.getD [1]).length →
      ((electron_vel.getD (List.replicate (efract.getD [1]).length
          ((0, 0, 0) : Vec3))).length ≠ (efract.getD [1]).length ∨
        Te'.length ≠ (efract.getD [1]).length) →
      spectral_density env wl pw n Te Ti efract ifract sp electron_vel ion_vel
          pv sv =
        .error (.electronMismatch (efract.getD [1]).length Te'.length
          (electron_vel.getD (List.replicate (efract.getD [1]).length
            ((0, 0, 0) : Vec3))).length)) := by
  refine ⟨?_, ?_, ?_, ?_⟩
  · intro env wl pw n Te Ti efract ifract sp electron_vel ion_vel pv sv hsp h1 h2
    simp only [spectral_density, conditionTe_error h1 h2]
    rw [if_neg hsp]
  · intro env wl pw n Te Ti efract ifract sp electron_vel ion_vel pv sv Te' hsp
      hTe h1 h2
    simp only [spectral_density, hTe, conditionTi_error h1 h2]
    rw [if_neg hsp]
  · intro env wl pw n Te Ti efract ifract sp electron_vel ion_vel pv sv Te' Ti'
      hsp hTe hTi hmis
    simp only [spectral_density, hTe, hTi]
    rw [if_neg hsp, if_pos hmis]
  · intro env wl pw n Te Ti efract ifract sp electron_vel ion_vel pv sv Te' Ti'
      hsp hTe hTi hA hB hC hmis
    simp only [spectral_density, hTe, hTi]
    rw [if_neg hsp, if_neg (by push_neg; exact ⟨hA, hB, hC⟩), if_pos hmis]

/-- Witness for C7 at the concrete input of the claim: `ifract` of length 2,
one ion species; the error names the `ifract` array and the species count. -/
theorem spectral_density_count_mismatch_witness :
    ([(⟨1⟩ : IonSpecies)] : List IonSpecies).length ≠ 0 ∧
    spectral_density envT [] 1 1 [1] [1] none (some [0.5, 0.5]) [⟨1⟩] none none
        (1, 0, 0) (0, 1, 0) =
      .error (.ionMismatch [0.5, 0.5] 1 1 2) := by
  refine ⟨by simp, ?_⟩
  have h := spectral_density_count_mismatch.2.2.1 envT [] 1 1 [1] [1] none
    (some [0.5, 0.5]) [⟨1⟩] none none (1, 0, 0) (0, 1, 0) [1] [1]
    (by simp) (by simp [conditionTe]) (by simp [conditionTi])
    (Or.inl (by simp))
  simpa using h

/-! ### C4: the scattering parameter `alpha` -/

lemma spectral_density_ok_eq (env : ThomsonEnv) (wl : List ℝ) (pw n : ℝ)
    (Te Ti : List ℝ) (efr ifr : List ℝ) (sp : List IonSpecies)
    (evel ivel : List Vec3) (pv sv : Vec3) (Te' Ti' : List ℝ)
    (hsp : sp.length ≠ 0)
    (hTe : conditionTe Te efr.length = .ok Te')
    (hTi : conditionTi Ti sp.length = .ok Ti')
    (h1 : ¬(sp.length ≠ ifr.length ∨ ivel.length ≠ ifr.length ∨
      Ti'.length ≠ ifr.length))
    (h2 : ¬(evel.length ≠ efr.length ∨ Te'.length ≠ efr.length)) :
    spectral_density env wl pw n Te Ti (some efr) (some ifr) sp (some evel)
        (some ivel) pv sv =
      .ok (spectral_density_calc env wl pw n Te' Ti' efr ifr sp evel ivel pv sv) := by
  simp only [spectral_density, Option.getD, hTe, hTi]
  rw [if_neg hsp, if_neg h1, if_neg h2]

/-- C4: for every valid call, the first returned value of `spectral_density`
is the arithmetic mean over all sampled wavelengths (and electron
populations) of `sqrt 2 * wpe / (k * vTe)`, with `wpe` the plasma frequency
of the total density `n` and `k` the combined scattering wavenumber per
wavelength sample, returned as a single scalar. -/
theorem spectral_density_alpha_mean :
    ∀ (env : ThomsonEnv) (wl : List ℝ) (pw n : ℝ) (Te Ti efr ifr : List ℝ)
      (sp : List IonSpecies) (evel ivel : List Vec3) (pv sv : Vec3)
      (Te' Ti' : List ℝ),
      sp.length ≠ 0 →
      conditionTe Te efr.length = .ok Te' →
      conditionTi Ti sp.length = .ok Ti' →
      sp.length = ifr.length → ivel.length = ifr.length →
      Ti'.length = ifr.length → evel.length = efr.length →
      Te'.length = efr.length →
      (spectral_density env wl pw n Te Ti (some efr) (some ifr) sp (some evel)
          (some ivel) pv sv).map Prod.fst =
        .ok ((((scatteredK env wl pw n (vnormalize pv) (vnormalize sv)).map
            fun kj => ((Te'.map env.thermal_speed_e).map fun vt =>
              Real.sqrt 2 * env.plasma_frequency_e n / (kj * vt)).sum).sum) /
          (((scatteredK env wl pw n (vnormalize pv) (vnormalize sv)).length *
            (Te'.map env.thermal_speed_e).length : ℕ) : ℝ)) := by
  intro env wl pw n Te Ti efr ifr sp evel ivel pv sv Te' Ti' hsp hTe hTi hion
    hivel hti hevel hte
  rw [spectral_density_ok_eq env wl pw n Te Ti efr ifr sp evel ivel pv sv Te' Ti'
    hsp hTe hTi (by push_neg; exact ⟨hion, hivel, hti⟩)
    (by push_neg; exact ⟨hevel, hte⟩)]
  rfl

/-- Witness for C4 at a concrete input: one wavelength sample, single
electron and ion populations. -/
theorem spectral_density_alpha_mean_witness :
    ([(⟨1⟩ : IonSpecies)] : List IonSpecies).length ≠ 0 ∧
    (spectral_density envT [1] 1 1 [1] [1] (some [1]) (some [1]) [⟨1⟩]
        (some [(0, 0, 0)]) (some [(0, 0, 0)]) (1, 0, 0) (0, 1, 0)).map Prod.fst =
      .ok ((((scatteredK envT [1] 1 1 (vnormalize (1, 0, 0))
          (vnormalize (0, 1, 0))).map
          fun kj => (([1].map envT.thermal_speed_e).map fun vt =>
            Real.sqrt 2 * envT.plasma_frequency_e 1 / (kj * vt)).sum).sum) /
        (((scatteredK envT [1] 1 1 (vnormalize (1, 0, 0))
            (vnormalize (0, 1, 0))).length *
          ([1].map envT.thermal_speed_e).length : ℕ) : ℝ)) := by
  refine ⟨by simp, ?_⟩
  exact spectral_density_alpha_mean envT [1] 1 1 [1] [1] [1] [1] [⟨1⟩]
    [(0, 0, 0)] [(0, 0, 0)] (1, 0, 0) (0, 1, 0) [1] [1] (by simp)
    (by simp [conditionTe]) (by simp [conditionTi]) rfl rfl rfl rfl rfl

end PlasmaPy
